import Mathlib

/-!
Shallow embedding of `tasktimer.py` (classes `Timer` and `TaskTimer`).

Modelling conventions:
* The clock is exact: clock readings and durations are rationals (`ℚ`).
  Every operation that reads the clock in Python (`t.time()`) takes the
  reading as an explicit argument.
* Python float values that can be `float('nan')` are modelled by
  `PyFloat ℚ`; a raised exception is modelled by `Except String`, the
  string naming the Python exception class.
* Presentation-only code (printing, `format_time`, `format_fit`,
  `format_table`, the `mode`/`verbose`/`format_string` options, and the
  optional `sortcol` re-ordering of the already-computed rows) is not
  embedded: it consumes the numeric state but never changes it.
-/

/-- A Python float value that is either an actual number or `float('nan')`. -/
inductive PyFloat (α : Type) where
  | num : α → PyFloat α
  | nan : PyFloat α
deriving DecidableEq, Repr

/-- Python's true division on floats: raises `ZeroDivisionError` when the
divisor compares equal to zero (NaN does not), and otherwise propagates NaN. -/
def pyDiv (a b : PyFloat ℚ) : Except String (PyFloat ℚ) :=
  if b = .num 0 then .error "ZeroDivisionError"
  else
    match a, b with
    | .nan, _ => .ok .nan
    | _, .nan => .ok .nan
    | .num x, .num y => .ok (.num (x / y))

/-- Python's `math.sqrt`: NaN propagates, a negative argument raises
`ValueError`, otherwise the exact square root (the clock being exact). -/
noncomputable def mathSqrt : PyFloat ℚ → Except String (PyFloat ℝ)
  | .nan => .ok .nan
  | .num q => if q < 0 then .error "ValueError" else .ok (.num (Real.sqrt q))

/-- The `statistics` constructor argument of `Timer`.  Python checks the
string and raises `TypeError` otherwise; the enumeration makes the invalid
case unrepresentable. -/
inductive Statistics where
  | population : Statistics
  | sample : Statistics
deriving DecidableEq, Repr

/-- State of class `Timer`.  `pendingStart` is the source's `self._start`
attribute; `none` means the attribute has never been assigned (reading it
raises `AttributeError`).  `running` is a ghost flag that is not a field of
the Python object: it records whether a `start()` has been issued without a
matching `stop()` (an "open lap"); no computed value ever depends on it.
`stats` records the `statistics` constructor argument, to which Python binds
the `variance`/`stdev` methods. -/
structure Timer where
  last : ℚ
  total : ℚ
  mean : ℚ
  sum_sq_diff : ℚ
  laps : ℕ
  pendingStart : Option ℚ
  running : Bool
  stats : Statistics
deriving DecidableEq, Repr

/-- `Timer.__init__`: calls `reset()`; `self._start` stays unset. -/
def Timer.mkNew (stats : Statistics) : Timer :=
  { last := 0, total := 0, mean := 0, sum_sq_diff := 0, laps := 0,
    pendingStart := none, running := false, stats := stats }

/-- `Timer()` with the default `statistics='population'`. -/
def Timer.init : Timer := Timer.mkNew .population

/-- `Timer.reset`: zeroes the five statistics fields.  It does NOT touch
`self._start`. -/
def Timer.reset (tm : Timer) : Timer :=
  { tm with last := 0, total := 0, mean := 0, sum_sq_diff := 0, laps := 0 }

/-- `Timer.start`: `self._start = t.time()`. -/
def Timer.start (tm : Timer) (now : ℚ) : Timer :=
  { tm with pendingStart := some now, running := true }

/-- `Timer.stop`: reads `self._start` (raises `AttributeError`, modelled as
`none`, when it was never assigned), then performs the Welford update and
re-arms `self._start` with the current clock reading. -/
def Timer.stop (tm : Timer) (now : ℚ) : Option Timer :=
  match tm.pendingStart with
  | none => none
  | some s =>
    let elapsed := now - s
    let laps' := tm.laps + 1
    let delta1 := elapsed - tm.mean
    let mean' := tm.mean + delta1 / (laps' : ℚ)
    let delta2 := elapsed - mean'
    some { tm with
      last := elapsed
      total := tm.total + elapsed
      mean := mean'
      sum_sq_diff := tm.sum_sq_diff + delta1 * delta2
      laps := laps'
      pendingStart := some now
      running := false }

/-- `Timer.population_variance`: `return self.sum_sq_diff/self.laps`. -/
def Timer.population_variance (tm : Timer) : Except String (PyFloat ℚ) :=
  pyDiv (.num tm.sum_sq_diff) (.num (tm.laps : ℚ))

/-- `Timer.sample_variance`: NaN when `self.laps == 1`, otherwise
`self.sum_sq_diff/(self.laps-1)` (Python int arithmetic: for `laps == 0`
the divisor is `-1`). -/
def Timer.sample_variance (tm : Timer) : Except String (PyFloat ℚ) :=
  if tm.laps = 1 then .ok .nan
  else pyDiv (.num tm.sum_sq_diff) (.num ((tm.laps : ℚ) - 1))

/-- The `self.variance` method reference bound by `__init__` according to
the `statistics` argument. -/
def Timer.variance (tm : Timer) : Except String (PyFloat ℚ) :=
  match tm.stats with
  | .population => tm.population_variance
  | .sample => tm.sample_variance

/-- `Timer.population_stdev`: `return math.sqrt(self.variance())` — note
that the source calls the BOUND `self.variance()`, not
`self.population_variance()`. -/
noncomputable def Timer.population_stdev (tm : Timer) : Except String (PyFloat ℝ) :=
  tm.variance >>= mathSqrt

/-- `Timer.sample_stdev`: `return math.sqrt(self.sample_variance())`. -/
noncomputable def Timer.sample_stdev (tm : Timer) : Except String (PyFloat ℝ) :=
  tm.sample_variance >>= mathSqrt

/-- The `self.stdev` method reference bound by `__init__` according to the
`statistics` argument. -/
noncomputable def Timer.stdev (tm : Timer) : Except String (PyFloat ℝ) :=
  match tm.stats with
  | .population => tm.population_stdev
  | .sample => tm.sample_stdev

/-- One lap fed through the public interface: `start()` at clock reading
`s`, then `stop()` at clock reading `s + d`, so the lap's duration is
exactly `d`.  After `start` the `_start` attribute is set, so `stop` cannot
fail; the `getD` default is never used. -/
def Timer.runLap (tm : Timer) (s d : ℚ) : Timer :=
  ((tm.start s).stop (s + d)).getD (tm.start s)

/-- A sequence of laps: each list entry is a `(startTime, duration)` pair. -/
def Timer.runLaps (tm : Timer) (l : List (ℚ × ℚ)) : Timer :=
  l.foldl (fun acc p => acc.runLap p.1 p.2) tm

/-! ## The task registry: class `TaskTimer`

The `OrderedDict` `self.timers` is modelled as an insertion-ordered
association list.  Lookup and in-place value update follow dict semantics
(first, and by construction only, occurrence of a key). -/

/-- `self.timers[tag]` read access: `none` models a `KeyError`. -/
def lookupT : List (String × Timer) → String → Option Timer
  | [], _ => none
  | (a, t) :: rest, k => if a = k then some t else lookupT rest k

/-- In-place update of the value stored under a key, preserving the
insertion order of the `OrderedDict`. -/
def updateT (l : List (String × Timer)) (k : String) (f : Timer → Timer) :
    List (String × Timer) :=
  match l with
  | [] => []
  | (a, t) :: rest => if a = k then (a, f t) :: rest else (a, t) :: updateT rest k f

/-- State of class `TaskTimer`.  `laps` is `self.laps` (the expected number
of steps of the current loop), `offset` is `self.offset` (in Python unset
until `iterate()` first assigns it; it is only ever read while
`in_progress` is true, which guarantees it has been assigned — the initial
`0` here is never observed).  The display options (`mode`, format
functions) only affect printing and are not part of the state. -/
structure TaskTimer where
  master : Timer
  timers : List (String × Timer)
  current : Option String
  laps : ℕ
  offset : ℤ
  in_progress : Bool
deriving DecidableEq, Repr

/-- `TaskTimer.__init__` (display options omitted). -/
def TaskTimer.init : TaskTimer :=
  { master := Timer.init, timers := [], current := none,
    laps := 0, offset := 0, in_progress := false }

/-- Second half of `TaskTimer.task(tag)` (the code after the `stop()` of
the outgoing task): when `tag` is not `None`, lazily create the accumulator
for `tag` if absent (appending it, as `OrderedDict` insertion does), start
it, and finally set `self.current = tag`. -/
def taskStartPhase (tt : TaskTimer) (tag : Option String) (now : ℚ) : TaskTimer :=
  match tag with
  | none => { tt with current := none }
  | some g =>
    let timers1 :=
      if (lookupT tt.timers g).isSome then tt.timers
      else tt.timers ++ [(g, Timer.init)]
    { tt with
      timers := updateT timers1 g (fun tm => tm.start now)
      current := some g }

/-- `TaskTimer.task(tag)`: stop the current task's accumulator (if any),
then run the start phase.  `nowStop` and `nowStart` are the two clock
readings taken by the inner `stop()` and `start()` calls.  Errors:
`KeyError` if `self.current` names an unregistered tag (unreachable from
`TaskTimer.init`), `AttributeError` if the stopped accumulator was never
started (likewise unreachable).  The `self.status()` call in compact mode
only prints. -/
def TaskTimer.task (tt : TaskTimer) (tag : Option String) (nowStop nowStart : ℚ) :
    Except String TaskTimer :=
  match tt.current with
  | none => .ok (taskStartPhase tt tag nowStart)
  | some k =>
    match lookupT tt.timers k with
    | none => .error "KeyError"
    | some tm =>
      match tm.stop nowStop with
      | none => .error "AttributeError"
      | some tm' =>
        .ok (taskStartPhase
          { tt with timers := updateT tt.timers k (fun _ => tm') } tag nowStart)

/-- A whole sequence of `task()` calls from a given state; each call comes
with its two clock readings. -/
def TaskTimer.runTasks (tt : TaskTimer) (calls : List (Option String × ℚ × ℚ)) :
    Except String TaskTimer :=
  calls.foldlM (fun acc c => acc.task c.1 c.2.1 c.2.2) tt

/-- Setup phase of `TaskTimer.iterate(iterable, iterations, offset)`, run
before the first element is yielded: store the expected step count
(`len(iterable)` when the `iterations` argument is `None`), store the
offset, set `in_progress`, and reset and start the master accumulator.
`seqLen` is `len(iterable)` and `now` the clock reading of
`self.master.start()`. -/
def TaskTimer.iterInit (tt : TaskTimer) (seqLen : ℕ) (iterations : Option ℕ)
    (offset : ℤ) (now : ℚ) : TaskTimer :=
  { tt with
    laps := iterations.getD seqLen
    offset := offset
    in_progress := true
    master := (tt.master.reset).start now }

/-- One resumption of the `iterate` generator after an element has been
consumed: `self.task(None)` followed by `self.master.stop()`.  `nowTask`
and `nowStop` are the clock readings of the two calls.  (The `status()`
call before the `yield` only prints.) -/
def TaskTimer.iterStep (tt : TaskTimer) (nowTask nowStop : ℚ) :
    Except String TaskTimer := do
  let tt1 ← tt.task none nowTask nowTask
  match tt1.master.stop nowStop with
  | none => Except.error "AttributeError"
  | some m => Except.ok { tt1 with master := m }

/-- The registry state after the setup phase of `iterate` and the
consumption (in order) of one element per entry of `times`. -/
def TaskTimer.iterRun (tt : TaskTimer) (seqLen : ℕ) (iterations : Option ℕ)
    (offset : ℤ) (now : ℚ) (times : List (ℚ × ℚ)) : Except String TaskTimer :=
  times.foldlM (fun acc p => acc.iterStep p.1 p.2)
    (tt.iterInit seqLen iterations offset now)

/-- The numbers computed by `TaskTimer.status()` when a loop is in
progress: projected total duration, estimated time remaining, and percent
progress (whose division raises `ZeroDivisionError` when
`self.laps + self.offset == 0`).  Outside a loop `status()` only prints. -/
def TaskTimer.statusNums (tt : TaskTimer) :
    Option (ℚ × ℚ × Except String ℚ) :=
  if tt.in_progress then
    let lap := tt.master.laps
    let total_time := ((tt.laps : ℚ) / ((max lap 1 : ℕ) : ℚ)) * tt.master.total
    let eta := total_time - tt.master.total
    let progress :=
      if (tt.laps : ℤ) + tt.offset = 0 then Except.error "ZeroDivisionError"
      else Except.ok (100 * ((lap : ℚ) + (tt.offset : ℚ)) / ((tt.laps : ℚ) + (tt.offset : ℚ)))
    some (total_time, eta, progress)
  else none

/-- One row of the table computed by `TaskTimer.summary()`, before the
purely presentational string formatting. -/
structure SummaryRow where
  tag : String
  laps : ℕ
  mean : ℚ
  stdev : PyFloat ℝ
  total : ℚ
  fraction : PyFloat ℚ

/-- The loop body of `summary()`: for each registered task, in insertion
order, compute `fraction = 100*v.total/total_time` (this is the statement
that raises `ZeroDivisionError` when the grand total is zero) and the row
`[k, v.laps, v.mean, v.stdev(), v.total, fraction]`. -/
noncomputable def summaryRowsAux (total_time : ℚ) :
    List (String × Timer) → Except String (List SummaryRow)
  | [] => .ok []
  | (k, v) :: rest => do
    let fraction ← pyDiv (.num (100 * v.total)) (.num total_time)
    let sd ← v.stdev
    let rows ← summaryRowsAux total_time rest
    .ok ({ tag := k, laps := v.laps, mean := v.mean, stdev := sd,
           total := v.total, fraction := fraction } :: rows)

/-- The numeric content of `TaskTimer.summary()` with the default
`sortcol=None`: the grand total over all registered tasks and the per-task
rows.  String formatting and the header/footer rows are presentation. -/
noncomputable def TaskTimer.summaryRows (tt : TaskTimer) :
    Except String (List SummaryRow) :=
  summaryRowsAux ((tt.timers.map (fun kv => kv.2.total)).sum) tt.timers

/-- Population variance of a list of durations computed directly from its
definition, as the spec words it: `(Σ(dᵢ - mean)²)/n` with `mean = Σdᵢ/n`. -/
def directPopulationVariance (ds : List ℚ) : ℚ :=
  (ds.map (fun d => (d - ds.sum / (ds.length : ℚ)) ^ 2)).sum / (ds.length : ℚ)

/-! ## Lemmas about `Timer` -/

theorem pyDiv_num (a b : ℚ) (hb : b ≠ 0) :
    pyDiv (.num a) (.num b) = .ok (.num (a / b)) := by
  simp [pyDiv, hb]

/-- A `start`/`stop` pair with duration `d` performs exactly one Welford
update with sample `d`. -/
theorem Timer.runLap_eq (tm : Timer) (s d : ℚ) :
    tm.runLap s d =
      { tm with
        last := d
        total := tm.total + d
        mean := tm.mean + (d - tm.mean) / ((tm.laps : ℚ) + 1)
        sum_sq_diff := tm.sum_sq_diff +
          (d - tm.mean) * (d - (tm.mean + (d - tm.mean) / ((tm.laps : ℚ) + 1)))
        laps := tm.laps + 1
        pendingStart := some (s + d)
        running := false } := by
  simp only [Timer.runLap, Timer.start, Timer.stop, Option.getD_some]
  have h : s + d - s = d := by ring
  push_cast
  simp [h]

theorem Timer.runLaps_append (tm : Timer) (l : List (ℚ × ℚ)) (p : ℚ × ℚ) :
    tm.runLaps (l ++ [p]) = (tm.runLaps l).runLap p.1 p.2 := by
  simp [Timer.runLaps, List.foldl_append]

/-- Correctness of the running Welford state: after feeding the laps of `l`
into a fresh `Timer`, the lap count, total, mean and `sum_sq_diff` have
their closed forms in terms of the durations.  (In Lean, `x / 0 = 0`, so
the `mean` and `sum_sq_diff` clauses also hold for the empty list.) -/
theorem Timer.runLaps_stats (st : Statistics) (l : List (ℚ × ℚ)) :
    ((Timer.mkNew st).runLaps l).laps = l.length ∧
    ((Timer.mkNew st).runLaps l).total = (l.map Prod.snd).sum ∧
    ((Timer.mkNew st).runLaps l).mean = (l.map Prod.snd).sum / (l.length : ℚ) ∧
    ((Timer.mkNew st).runLaps l).sum_sq_diff =
      (l.map (fun p => p.2 ^ 2)).sum - (l.map Prod.snd).sum ^ 2 / (l.length : ℚ) := by
  induction l using List.reverseRecOn with
  | nil => simp [Timer.runLaps, Timer.mkNew]
  | append_singleton l p ih =>
    obtain ⟨hlaps, htotal, hmean, hssd⟩ := ih
    rw [Timer.runLaps_append, Timer.runLap_eq]
    rcases eq_or_ne l [] with rfl | hne
    · simp [Timer.runLaps, Timer.mkNew]
    · have hn : (l.length : ℚ) ≠ 0 := by
        simpa using fun h => hne (List.length_eq_zero.mp h)
      have hn1 : ((l.length : ℚ) + 1) ≠ 0 := by positivity
      refine ⟨by simp [hlaps], by simp [htotal], ?_, ?_⟩
      · simp only [hmean, hlaps, List.length_append, List.map_append,
          List.sum_append, List.map_cons, List.map_nil, List.sum_cons,
          List.sum_nil, List.length_cons, List.length_nil]
        push_cast
        field_simp
        ring
      · simp only [hssd, hmean, hlaps, List.length_append, List.map_append,
          List.sum_append, List.map_cons, List.map_nil, List.sum_cons,
          List.sum_nil, List.length_cons, List.length_nil]
        push_cast
        field_simp
        ring

/-- Sum of squared deviations from an arbitrary centre, expanded. -/
theorem sum_sq_dev (ds : List ℚ) (c : ℚ) :
    (ds.map (fun d => (d - c) ^ 2)).sum
      = (ds.map (fun d => d ^ 2)).sum - 2 * c * ds.sum + (ds.length : ℚ) * c ^ 2 := by
  induction ds with
  | nil => simp
  | cons x xs ih =>
    simp only [List.map_cons, List.sum_cons, List.length_cons, ih]
    push_cast
    ring

/-- C1: For every sequence of n laps with durations d1..dn fed through
`Timer` via matching `start()`/`stop()` pairs (with an exact clock),
afterwards `timer.total` equals the sum of the di, `timer.laps` equals n,
and for every n ≥ 1 `population_variance()` equals the directly computed
population variance `(Σ(dᵢ - mean)²)/n`. -/
theorem timer_welford_correct (st : Statistics) (l : List (ℚ × ℚ)) :
    ((Timer.mkNew st).runLaps l).total = (l.map Prod.snd).sum ∧
    ((Timer.mkNew st).runLaps l).laps = l.length ∧
    (l ≠ [] →
      ((Timer.mkNew st).runLaps l).population_variance =
        .ok (.num (directPopulationVariance (l.map Prod.snd)))) := by
  obtain ⟨hlaps, htotal, hmean, hssd⟩ := Timer.runLaps_stats st l
  refine ⟨htotal, hlaps, fun hne => ?_⟩
  have hn : (l.length : ℚ) ≠ 0 := by
    simpa using fun h => hne (List.length_eq_zero.mp h)
  rw [Timer.population_variance, hlaps, hssd, pyDiv_num _ _ hn]
  have hQ : ((l.map Prod.snd).map (fun d => d ^ 2)).sum
      = (l.map (fun p => p.2 ^ 2)).sum := by
    rw [List.map_map]; rfl
  rw [directPopulationVariance, sum_sq_dev, hQ]
  simp only [List.length_map]
  field_simp
  ring

/-- Witness for C1 at the spec's three-lap scenario (durations 1.5, 1, 2). -/
theorem timer_welford_correct_witness :
    ((Timer.mkNew .population).runLaps
        [((4 : ℚ), (3 : ℚ)/2), (7, 1), (11, 2)]).population_variance =
      .ok (.num (directPopulationVariance
        ([((4 : ℚ), (3 : ℚ)/2), (7, 1), (11, 2)].map Prod.snd))) :=
  (timer_welford_correct .population _).2.2 (by simp)

/-- The concrete `Timer` used to refute C3: three laps of 1.5 s, 1 s, 2 s
fed into a `Timer(statistics='sample')`. -/
def tmC3 : Timer :=
  (Timer.mkNew .sample).runLaps [((4 : ℚ), (3 : ℚ)/2), (7, 1), (11, 2)]

theorem tmC3_sample_variance : tmC3.sample_variance = .ok (.num (1/4)) := by
  norm_num [tmC3, Timer.sample_variance, pyDiv, Timer.runLaps, Timer.runLap,
    Timer.start, Timer.stop, Timer.mkNew]

theorem tmC3_population_variance : tmC3.population_variance = .ok (.num (1/6)) := by
  norm_num [tmC3, Timer.population_variance, pyDiv, Timer.runLaps, Timer.runLap,
    Timer.start, Timer.stop, Timer.mkNew]

theorem tmC3_stats : tmC3.stats = .sample := rfl

/-- C3 counterexample: for a `Timer(statistics='sample')` after laps
1.5 s, 1 s, 2 s, `population_stdev()` is NOT the square root of
`population_variance()` — the source's `population_stdev` takes the square
root of the bound `self.variance()`, which is `sample_variance` here. -/
theorem population_stdev_not_sqrt_population_variance :
    tmC3.population_stdev ≠ tmC3.population_variance >>= mathSqrt := by
  rw [Timer.population_stdev, Timer.variance, tmC3_stats, tmC3_sample_variance,
    tmC3_population_variance]
  simp only [bind, Except.bind, mathSqrt]
  norm_num

/-- C3 amended: `sample_stdev()` is always the square root of
`sample_variance()`; `population_stdev()` is the square root of the BOUND
`variance()` selected by the `statistics` configuration — it equals the
square root of `population_variance()` only under `statistics='population'`
— and NaN propagates through the square root. -/
theorem stdev_sqrt_of_configured_variance (tm : Timer) :
    tm.sample_stdev = tm.sample_variance >>= mathSqrt ∧
    tm.population_stdev = tm.variance >>= mathSqrt ∧
    (tm.stats = .population →
      tm.population_stdev = tm.population_variance >>= mathSqrt) ∧
    (tm.variance = .ok .nan → tm.population_stdev = .ok .nan) ∧
    (tm.sample_variance = .ok .nan → tm.sample_stdev = .ok .nan) := by
  refine ⟨rfl, rfl, fun h => ?_, fun h => ?_, fun h => ?_⟩
  · rw [Timer.population_stdev, Timer.variance, h]
  · rw [Timer.population_stdev, h]; rfl
  · rw [Timer.sample_stdev, h]; rfl

/-- Witness for C3's amended theorem: a one-lap `Timer` has
`sample_variance()` NaN and `sample_stdev()` propagates it. -/
theorem stdev_sqrt_of_configured_variance_witness :
    ({ Timer.mkNew .population with laps := 1 } : Timer).sample_stdev = .ok .nan :=
  (stdev_sqrt_of_configured_variance _).2.2.2.2
    (by simp [Timer.sample_variance, Timer.mkNew])

/-- C4: at `laps == 0`, `population_variance()` raises `ZeroDivisionError`
(`sum_sq_diff/laps` divides by zero) instead of reporting NaN as the claim
— and the repository's own test suite (`test_tasktimer.py`, which asserts
`isnan(timer.population_variance())` on a fresh timer) — require; for
`laps >= 1` it returns `sum_sq_diff / laps` as claimed. -/
theorem population_variance_zero_laps_raises (tm : Timer) :
    (tm.laps = 0 → tm.population_variance = .error "ZeroDivisionError") ∧
    (tm.laps ≠ 0 →
      tm.population_variance = .ok (.num (tm.sum_sq_diff / (tm.laps : ℚ)))) := by
  constructor
  · intro h
    simp [Timer.population_variance, pyDiv, h]
  · intro h
    exact pyDiv_num _ _ (by exact_mod_cast h)

/-- Witness for C4 on a freshly constructed timer. -/
theorem population_variance_zero_laps_raises_witness :
    (Timer.mkNew .population).population_variance = .error "ZeroDivisionError" :=
  (population_variance_zero_laps_raises (Timer.mkNew .population)).1 rfl

/-- C5: `sample_variance()` is NaN at `laps == 1` and equals
`sum_sq_diff/(laps-1)` — equivalently `population_variance() * n/(n-1)` —
for `laps >= 2`, as claimed; but at `laps == 0` the `laps == 1` guard does
not fire and the source divides by `laps - 1 == -1`, returning
`-sum_sq_diff` (i.e. `-0.0` on a fresh timer) instead of the NaN that the
claim — and the repository's own test suite — require. -/
theorem sample_variance_cases (tm : Timer) :
    (tm.laps = 0 → tm.sample_variance = .ok (.num (-tm.sum_sq_diff))) ∧
    (tm.laps = 1 → tm.sample_variance = .ok .nan) ∧
    (2 ≤ tm.laps →
      tm.sample_variance = .ok (.num (tm.sum_sq_diff / ((tm.laps : ℚ) - 1)))) ∧
    (2 ≤ tm.laps →
      tm.sample_variance =
        .ok (.num ((tm.sum_sq_diff / (tm.laps : ℚ)) * (tm.laps : ℚ) / ((tm.laps : ℚ) - 1)))) := by
  refine ⟨fun h => ?_, fun h => ?_, fun h => ?_, fun h => ?_⟩
  · rw [Timer.sample_variance, if_neg (by omega), h]
    rw [pyDiv_num _ _ (by norm_num)]
    have : tm.sum_sq_diff / (((0 : ℕ) : ℚ) - 1) = -tm.sum_sq_diff := by
      push_cast
      ring
    rw [this]
  · simp [Timer.sample_variance, h]
  · rw [Timer.sample_variance, if_neg (by omega)]
    exact pyDiv_num _ _ (by
      have : (2 : ℚ) ≤ (tm.laps : ℚ) := by exact_mod_cast h
      linarith)
  · rw [Timer.sample_variance, if_neg (by omega)]
    rw [pyDiv_num _ _ (by
      have : (2 : ℚ) ≤ (tm.laps : ℚ) := by exact_mod_cast h
      linarith)]
    have hne : (tm.laps : ℚ) ≠ 0 := by
      have : (2 : ℚ) ≤ (tm.laps : ℚ) := by exact_mod_cast h
      linarith
    rw [div_mul_cancel₀ _ hne]

/-- Witness for C5 on a freshly constructed timer: `sample_variance()`
returns the number 0 (Python `-0.0`), not NaN. -/
theorem sample_variance_cases_witness :
    (Timer.mkNew .population).sample_variance = .ok (.num (-0)) :=
  (sample_variance_cases (Timer.mkNew .population)).1 rfl

/-- C8 counterexample: `stop()` on a freshly constructed `Timer` with no
prior `start()` fails (`self._start` was never assigned, so Python raises
`AttributeError`); it does not succeed with a defaulted `pendingStart`. -/
theorem stop_without_start_fails : (Timer.mkNew .population).stop 5 = none := rfl

/-- C8 amended: `stop()` with no prior `start()` since construction raises
`AttributeError`; after a `reset()`, `self._start` retains the clock
reading of the last `start()`/`stop()` before the reset (if any), so
`stop()` then succeeds and records elapsed time measured from that retained
reading — the time since the last start/stop, not the time since the
reset. -/
theorem stop_after_reset_measures_from_retained_start (tm : Timer) (s t : ℚ) :
    (tm.pendingStart = none → tm.stop t = none) ∧
    (tm.pendingStart = some s →
      ∃ tm', (tm.reset).stop t = some tm' ∧ tm'.last = t - s ∧
        tm'.total = t - s ∧ tm'.laps = 1) := by
  constructor
  · intro h
    simp [Timer.stop, h]
  · intro h
    have hps : tm.reset.pendingStart = some s := h
    simp only [Timer.stop, hps]
    exact ⟨_, rfl, rfl, by simp [Timer.reset], by simp [Timer.reset]⟩

/-- Witness for C8's amended theorem: a timer started at clock 3, reset,
then stopped at clock 7 records a lap of 4 — the time since the start
before the reset. -/
theorem stop_after_reset_witness :
    ∃ tm', (((Timer.mkNew .population).start 3).reset).stop 7 = some tm' ∧
      tm'.last = 7 - 3 ∧ tm'.total = 7 - 3 ∧ tm'.laps = 1 :=
  (stop_after_reset_measures_from_retained_start
    ((Timer.mkNew .population).start 3) 3 7).2 rfl

/-- The projected total duration as the spec words it:
`(total / max(lap,1)) * masterTotalDuration`. -/
def spec_projectedTotalDuration (lap total : ℕ) (masterTotal : ℚ) : ℚ :=
  ((total : ℚ) / ((max lap 1 : ℕ) : ℚ)) * masterTotal

/-- The estimated time remaining as the spec words it. -/
def spec_eta (lap total : ℕ) (masterTotal : ℚ) : ℚ :=
  spec_projectedTotalDuration lap total masterTotal - masterTotal

/-- The progress percentage as the spec words it:
`100 * (lap + offset) / (total + offset)`. -/
def spec_percent (lap total : ℕ) (offset : ℤ) : ℚ :=
  100 * ((lap : ℚ) + (offset : ℚ)) / ((total : ℚ) + (offset : ℚ))

/-- C6: for every in-progress iteration state with
`lap = masterAccumulator.lapCount`, `total = totalSteps` and the stored
offset, `status()` computes
`projectedTotalDuration = (total / max(lap,1)) * masterAccumulator.totalDuration`,
`eta = projectedTotalDuration - masterAccumulator.totalDuration`, and
`percent = 100 * (lap + offset) / (total + offset)` (the percent division
requires `totalSteps + offset ≠ 0`; otherwise it raises
`ZeroDivisionError`). -/
theorem status_computes_eta_formulas (tt : TaskTimer)
    (hprog : tt.in_progress = true) (hden : (tt.laps : ℤ) + tt.offset ≠ 0) :
    tt.statusNums = some
      ( spec_projectedTotalDuration tt.master.laps tt.laps tt.master.total,
        spec_eta tt.master.laps tt.laps tt.master.total,
        .ok (spec_percent tt.master.laps tt.laps tt.offset) ) := by
  simp [TaskTimer.statusNums, hprog, hden, spec_projectedTotalDuration,
    spec_eta, spec_percent]

/-- Witness for C6: a state 2 laps into a 4-step loop with total master
time 6 projects a total of 12, an ETA of 6, and 50 % progress. -/
theorem status_computes_eta_formulas_witness :
    ({ TaskTimer.init with
        master := { Timer.init with laps := 2, total := 6 },
        laps := 4, offset := 0, in_progress := true } : TaskTimer).statusNums
      = some (12, 6, .ok 50) := by
  rw [status_computes_eta_formulas _ rfl (by decide)]
  norm_num [spec_projectedTotalDuration, spec_eta, spec_percent]

/-! ## Association-list lemmas for the `OrderedDict` model -/

theorem lookupT_updateT_self (l : List (String × Timer)) (k : String)
    (f : Timer → Timer) :
    lookupT (updateT l k f) k = (lookupT l k).map f := by
  induction l with
  | nil => simp [lookupT, updateT]
  | cons p rest ih =>
    obtain ⟨a, t⟩ := p
    by_cases h : a = k
    · simp [lookupT, updateT, h]
    · simp [lookupT, updateT, h, ih]

theorem lookupT_updateT_other (l : List (String × Timer)) (k k' : String)
    (f : Timer → Timer) (h : k' ≠ k) :
    lookupT (updateT l k f) k' = lookupT l k' := by
  induction l with
  | nil => simp [updateT]
  | cons p rest ih =>
    obtain ⟨a, t⟩ := p
    by_cases ha : a = k
    · subst ha
      simp [lookupT, updateT, Ne.symm h]
    · by_cases ha' : a = k'
      · simp [lookupT, updateT, ha, ha', h]
      · simp [lookupT, updateT, ha, ha', ih]

theorem lookupT_append_other (l : List (String × Timer)) (g : String)
    (tm : Timer) (k : String) (h : k ≠ g) :
    lookupT (l ++ [(g, tm)]) k = lookupT l k := by
  induction l with
  | nil => simp [lookupT, Ne.symm h]
  | cons p rest ih =>
    obtain ⟨a, t⟩ := p
    by_cases ha : a = k <;> simp [lookupT, ha, ih]

theorem lookupT_append_self (l : List (String × Timer)) (g : String)
    (tm : Timer) (h : lookupT l g = none) :
    lookupT (l ++ [(g, tm)]) g = some tm := by
  induction l with
  | nil => simp [lookupT]
  | cons p rest ih =>
    obtain ⟨a, t⟩ := p
    by_cases ha : a = g
    · simp [lookupT, ha] at h
    · rw [List.cons_append]
      show (if a = g then some t else lookupT (rest ++ [(g, tm)]) g) = some tm
      rw [if_neg ha]
      rw [show lookupT ((a, t) :: rest) g = lookupT rest g by
        show (if a = g then some t else lookupT rest g) = _
        rw [if_neg ha]] at h
      exact ih h

theorem updateT_keys (l : List (String × Timer)) (k : String) (f : Timer → Timer) :
    (updateT l k f).map Prod.fst = l.map Prod.fst := by
  induction l with
  | nil => rfl
  | cons p rest ih =>
    obtain ⟨a, t⟩ := p
    by_cases h : a = k <;> simp [updateT, h, ih]

theorem lookupT_updateT_isSome (l : List (String × Timer)) (k k' : String)
    (f : Timer → Timer) :
    (lookupT (updateT l k f) k').isSome = (lookupT l k').isSome := by
  by_cases h : k' = k
  · subst h
    rw [lookupT_updateT_self]
    cases lookupT l k' <;> rfl
  · rw [lookupT_updateT_other _ _ _ _ h]

/-! ## Structure of a successful `task()` call -/

/-- `stop()` closes the lap of the ghost instrumentation. -/
theorem Timer.stop_running (tm tm' : Timer) (now : ℚ) (h : tm.stop now = some tm') :
    tm'.running = false := by
  unfold Timer.stop at h
  cases hps : tm.pendingStart with
  | none => rw [hps] at h; exact absurd h (by simp)
  | some s =>
    rw [hps] at h
    injection h with h'
    rw [← h']

/-- `stop()` preserves the `statistics` configuration. -/
theorem Timer.stop_stats (tm tm' : Timer) (now : ℚ) (h : tm.stop now = some tm') :
    tm'.stats = tm.stats := by
  unfold Timer.stop at h
  cases hps : tm.pendingStart with
  | none => rw [hps] at h; exact absurd h (by simp)
  | some s =>
    rw [hps] at h
    injection h with h'
    rw [← h']

/-- A successful `task()` call is the start phase applied either directly
(no current task) or to the state in which the current task's accumulator
has just been stopped. -/
theorem TaskTimer.task_ok_cases (tt : TaskTimer) (tag : Option String)
    (t1 t2 : ℚ) (tt' : TaskTimer) (h : tt.task tag t1 t2 = .ok tt') :
    (tt.current = none ∧ tt' = taskStartPhase tt tag t2) ∨
    (∃ c tm₀ tmS, tt.current = some c ∧ lookupT tt.timers c = some tm₀ ∧
      tm₀.stop t1 = some tmS ∧
      tt' = taskStartPhase
        { tt with timers := updateT tt.timers c (fun _ => tmS) } tag t2) := by
  unfold TaskTimer.task at h
  split at h
  next hc =>
    injection h with h'
    exact Or.inl ⟨hc, h'.symm⟩
  next c hc =>
    split at h
    next hlc => exact absurd h (by simp)
    next tm₀ hlc =>
      split at h
      next hstop => exact absurd h (by simp)
      next tmS hstop =>
        injection h with h'
        exact Or.inr ⟨c, tm₀, tmS, hc, hlc, hstop, h'.symm⟩

/-! ## C2: at most one open lap -/

/-- The claim's invariant: a registered accumulator has an open lap exactly
when it is the task named by `self.current` (so at most one is open, and
none is when `current` is `None`). -/
def OpenLapInv (tt : TaskTimer) : Prop :=
  ∀ k tm, lookupT tt.timers k = some tm → (tm.running = true ↔ tt.current = some k)

/-- The start phase establishes the invariant whenever every registered
accumulator is closed when it runs. -/
theorem taskStartPhase_inv (tt : TaskTimer) (tag : Option String) (now : ℚ)
    (hall : ∀ k tm, lookupT tt.timers k = some tm → tm.running = false) :
    OpenLapInv (taskStartPhase tt tag now) := by
  intro k tm hlk
  cases tag with
  | none =>
    simp only [taskStartPhase] at hlk ⊢
    rw [hall k tm hlk]
    simp
  | some g =>
    simp only [taskStartPhase] at hlk ⊢
    by_cases hk : k = g
    · subst hk
      rw [lookupT_updateT_self] at hlk
      by_cases hp : (lookupT tt.timers k).isSome
      · rw [if_pos hp] at hlk
        obtain ⟨t0, ht0⟩ := Option.isSome_iff_exists.mp hp
        rw [ht0] at hlk
        simp only [Option.map_some'] at hlk
        injection hlk with hlk
        rw [← hlk]
        simp [Timer.start]
      · rw [if_neg hp] at hlk
        rw [lookupT_append_self _ _ _ (Option.not_isSome_iff_eq_none.mp hp)] at hlk
        simp only [Option.map_some'] at hlk
        injection hlk with hlk
        rw [← hlk]
        simp [Timer.start]
    · rw [lookupT_updateT_other _ _ _ _ hk] at hlk
      have hlk' : lookupT tt.timers k = some tm := by
        by_cases hp : (lookupT tt.timers g).isSome
        · rwa [if_pos hp] at hlk
        · rw [if_neg hp] at hlk
          rwa [lookupT_append_other _ _ _ _ hk] at hlk
      rw [hall k tm hlk']
      simp [Ne.symm hk]

/-- After the stop half of `task()` has closed the current task's
accumulator, every registered accumulator is closed. -/
theorem task_stop_phase_all_closed (tt : TaskTimer) (c : String)
    (tmS : Timer) (hinv : OpenLapInv tt) (hc : tt.current = some c)
    (hrS : tmS.running = false) :
    ∀ k tm, lookupT (updateT tt.timers c (fun _ => tmS)) k = some tm →
      tm.running = false := by
  intro k tm hlk
  by_cases hk : k = c
  · subst hk
    rw [lookupT_updateT_self] at hlk
    cases hl : lookupT tt.timers k with
    | none => rw [hl] at hlk; exact absurd hlk (by simp)
    | some t0 =>
      rw [hl] at hlk
      simp only [Option.map_some'] at hlk
      injection hlk with hlk
      rw [← hlk]
      exact hrS
  · rw [lookupT_updateT_other _ _ _ _ hk] at hlk
    have := hinv k tm hlk
    rw [hc] at this
    simp only [Option.some.injEq] at this
    rcases hr : tm.running with _ | _
    · rfl
    · exact absurd (this.mp hr) (Ne.symm hk)

/-- One successful `task()` call preserves the open-lap invariant. -/
theorem task_preserves_openLapInv (tt : TaskTimer) (tag : Option String)
    (t1 t2 : ℚ) (tt' : TaskTimer) (h : tt.task tag t1 t2 = .ok tt')
    (hinv : OpenLapInv tt) : OpenLapInv tt' := by
  rcases TaskTimer.task_ok_cases tt tag t1 t2 tt' h with
    ⟨hc, rfl⟩ | ⟨c, tm₀, tmS, hc, hlc, hstop, rfl⟩
  · refine taskStartPhase_inv _ _ _ (fun k tm hlk => ?_)
    have := hinv k tm hlk
    rw [hc] at this
    simpa using this
  · exact taskStartPhase_inv _ _ _
      (task_stop_phase_all_closed tt c tmS hinv hc
        (Timer.stop_running tm₀ tmS t1 hstop))

/-- Any successful sequence of `task()` calls preserves the invariant. -/
theorem runTasks_openLapInv (calls : List (Option String × ℚ × ℚ)) :
    ∀ tt tt', OpenLapInv tt → tt.runTasks calls = .ok tt' → OpenLapInv tt' := by
  induction calls with
  | nil =>
    intro tt tt' hinv h
    simp only [TaskTimer.runTasks, List.foldlM_nil] at h
    injection h with h'
    rw [← h']
    exact hinv
  | cons c cs ih =>
    intro tt tt' hinv h
    simp only [TaskTimer.runTasks, List.foldlM_cons, bind, Except.bind] at h
    cases htask : tt.task c.1 c.2.1 c.2.2 with
    | error e => rw [htask] at h; exact absurd h (by simp)
    | ok tt1 =>
      rw [htask] at h
      exact ih tt1 tt' (task_preserves_openLapInv tt c.1 c.2.1 c.2.2 tt1 htask hinv)
        (by simpa [TaskTimer.runTasks] using h)

/-- C2: for every sequence of `TaskTimer.task(tag)` calls from a fresh
`TaskTimer`, at most one registered accumulator has an open lap (a
`start()` whose `stop()` has not yet run): the one named by
`self.current`, and none when `current` is `None`. -/
theorem task_calls_at_most_one_open (calls : List (Option String × ℚ × ℚ))
    (tt : TaskTimer) (h : TaskTimer.init.runTasks calls = .ok tt) :
    ∀ k tm, lookupT tt.timers k = some tm →
      (tm.running = true ↔ tt.current = some k) :=
  runTasks_openLapInv calls TaskTimer.init tt
    (fun k tm hlk => absurd hlk (by simp [TaskTimer.init, lookupT])) h

/-- Witness for C2 after the single call `task("A")`: the accumulator of
"A" is open, and the state's current task is "A". -/
theorem task_calls_at_most_one_open_witness :
    (Timer.init.start 0).running = true ↔
      ({ master := Timer.init, timers := [("A", Timer.init.start 0)],
         current := some "A", laps := 0, offset := 0,
         in_progress := false } : TaskTimer).current = some "A" :=
  task_calls_at_most_one_open [(some "A", 0, 0)] _
    (by norm_num [TaskTimer.runTasks, List.foldlM_cons, List.foldlM_nil,
      TaskTimer.task, taskStartPhase, TaskTimer.init, lookupT, updateT,
      bind, Except.bind, pure, Except.pure])
    "A" (Timer.init.start 0) (by simp [lookupT])

/-! ## C10: frame effect of `task()` -/

/-- The start phase never changes the statistics fields of any registered
accumulator (`start()` only touches `self._start`), and it only ever
appends a new tag at the end. -/
theorem taskStartPhase_frame (tt : TaskTimer) (tag : Option String) (now : ℚ)
    (k : String) (tm : Timer) (hlk : lookupT tt.timers k = some tm) :
    ∃ tm', lookupT (taskStartPhase tt tag now).timers k = some tm' ∧
      tm'.last = tm.last ∧ tm'.total = tm.total ∧ tm'.mean = tm.mean ∧
      tm'.sum_sq_diff = tm.sum_sq_diff ∧ tm'.laps = tm.laps := by
  cases tag with
  | none => exact ⟨tm, hlk, rfl, rfl, rfl, rfl, rfl⟩
  | some g =>
    simp only [taskStartPhase]
    by_cases hk : k = g
    · subst hk
      rw [lookupT_updateT_self]
      have hp : (lookupT tt.timers k).isSome = true := by rw [hlk]; rfl
      rw [if_pos hp, hlk]
      exact ⟨tm.start now, rfl, rfl, rfl, rfl, rfl, rfl⟩
    · rw [lookupT_updateT_other _ _ _ _ hk]
      by_cases hp : (lookupT tt.timers g).isSome
      · rw [if_pos hp]
        exact ⟨tm, hlk, rfl, rfl, rfl, rfl, rfl⟩
      · rw [if_neg hp, lookupT_append_other _ _ _ _ hk]
        exact ⟨tm, hlk, rfl, rfl, rfl, rfl, rfl⟩

/-- Key order after the start phase: unchanged, except that an unregistered
tag is appended at the end. -/
theorem taskStartPhase_keys (tt : TaskTimer) (tag : Option String) (now : ℚ) :
    (tag = none → (taskStartPhase tt tag now).timers = tt.timers) ∧
    (∀ g, tag = some g → (lookupT tt.timers g).isSome →
      (taskStartPhase tt tag now).timers.map Prod.fst = tt.timers.map Prod.fst) ∧
    (∀ g, tag = some g → lookupT tt.timers g = none →
      (taskStartPhase tt tag now).timers.map Prod.fst
        = tt.timers.map Prod.fst ++ [g]) := by
  refine ⟨?_, ?_, ?_⟩
  · rintro rfl
    rfl
  · rintro g rfl hp
    simp only [taskStartPhase, if_pos hp]
    exact updateT_keys _ _ _
  · rintro g rfl hnone
    have hp : ¬(lookupT tt.timers g).isSome = true := by simp [hnone]
    simp only [taskStartPhase, if_neg hp]
    rw [updateT_keys]
    simp

/-- C10: a `task(tag)` call leaves the statistics fields (`last`, `total`,
`mean`, `sum_sq_diff`, `laps`) of every registered accumulator other than
the outgoing current task's unchanged, and preserves the insertion order of
previously registered tags — a pre-existing tag is never moved, a new tag
is appended at the end. -/
theorem task_frame_effect (tt : TaskTimer) (tag : Option String) (t1 t2 : ℚ)
    (tt' : TaskTimer) (h : tt.task tag t1 t2 = .ok tt') :
    (∀ k tm, lookupT tt.timers k = some tm → tt.current ≠ some k →
      ∃ tm', lookupT tt'.timers k = some tm' ∧ tm'.last = tm.last ∧
        tm'.total = tm.total ∧ tm'.mean = tm.mean ∧
        tm'.sum_sq_diff = tm.sum_sq_diff ∧ tm'.laps = tm.laps) ∧
    (tag = none → tt'.timers.map Prod.fst = tt.timers.map Prod.fst) ∧
    (∀ g, tag = some g → (lookupT tt.timers g).isSome →
      tt'.timers.map Prod.fst = tt.timers.map Prod.fst) ∧
    (∀ g, tag = some g → lookupT tt.timers g = none →
      tt'.timers.map Prod.fst = tt.timers.map Prod.fst ++ [g]) := by
  rcases TaskTimer.task_ok_cases tt tag t1 t2 tt' h with
    ⟨hc, rfl⟩ | ⟨c, tm₀, tmS, hc, hlc, hstop, rfl⟩
  · obtain ⟨k1, k2, k3⟩ := taskStartPhase_keys tt tag t2
    refine ⟨fun k tm hlk _ => taskStartPhase_frame tt tag t2 k tm hlk,
      fun hn => by rw [k1 hn], k2, k3⟩
  · set tt1 : TaskTimer :=
      { tt with timers := updateT tt.timers c (fun _ => tmS) } with htt1
    have hkeys1 : tt1.timers.map Prod.fst = tt.timers.map Prod.fst :=
      updateT_keys _ _ _
    obtain ⟨k1, k2, k3⟩ := taskStartPhase_keys tt1 tag t2
    refine ⟨?_, ?_, ?_, ?_⟩
    · intro k tm hlk hcur
      have hkc : k ≠ c := by
        intro hkc
        rw [hkc] at hcur
        exact hcur hc
      have hlk1 : lookupT tt1.timers k = some tm := by
        rw [htt1]
        show lookupT (updateT tt.timers c fun _ => tmS) k = some tm
        rw [lookupT_updateT_other _ _ _ _ hkc]
        exact hlk
      exact taskStartPhase_frame tt1 tag t2 k tm hlk1
    · intro hn
      rw [k1 hn, hkeys1]
    · intro g hg hp
      have hp1 : (lookupT tt1.timers g).isSome = true := by
        rw [htt1]
        show (lookupT (updateT tt.timers c fun _ => tmS) g).isSome = true
        rw [lookupT_updateT_isSome]
        exact hp
      rw [k2 g hg hp1, hkeys1]
    · intro g hg hnone
      have hnone1 : lookupT tt1.timers g = none := by
        have : (lookupT tt1.timers g).isSome = (lookupT tt.timers g).isSome := by
          rw [htt1]
          exact lookupT_updateT_isSome _ _ _ _
        rw [hnone] at this
        exact Option.not_isSome_iff_eq_none.mp (by rw [this]; simp)
      rw [k3 g hg hnone1, hkeys1]

/-- Concrete state for the C10 witness: one registered, closed task "A". -/
def ttW10 : TaskTimer :=
  { TaskTimer.init with timers := [("A", Timer.init.start 0)] }

/-- Witness for C10: calling `task("B")` on `ttW10` appends "B" after "A". -/
theorem task_frame_effect_witness :
    (taskStartPhase ttW10 (some "B") 1).timers.map Prod.fst
      = ttW10.timers.map Prod.fst ++ ["B"] :=
  (task_frame_effect ttW10 (some "B") 1 1 _ rfl).2.2.2 "B" rfl (by decide)

/-! ## C9: the master accumulator lap bound during `iterate()` -/

/-- `stop()` increments the lap count by exactly one. -/
theorem Timer.stop_laps (tm tm' : Timer) (now : ℚ) (h : tm.stop now = some tm') :
    tm'.laps = tm.laps + 1 := by
  unfold Timer.stop at h
  cases hps : tm.pendingStart with
  | none => rw [hps] at h; exact absurd h (by simp)
  | some s =>
    rw [hps] at h
    injection h with h'
    rw [← h']

/-- `task()` never touches the master accumulator or the stored expected
step count. -/
theorem task_preserves_master (tt : TaskTimer) (tag : Option String)
    (t1 t2 : ℚ) (tt' : TaskTimer) (h : tt.task tag t1 t2 = .ok tt') :
    tt'.master = tt.master ∧ tt'.laps = tt.laps := by
  have hsp : ∀ (s : TaskTimer), (taskStartPhase s tag t2).master = s.master ∧
      (taskStartPhase s tag t2).laps = s.laps := by
    intro s
    cases tag <;> simp [taskStartPhase]
  rcases TaskTimer.task_ok_cases tt tag t1 t2 tt' h with
    ⟨_, rfl⟩ | ⟨c, tm₀, tmS, _, _, _, rfl⟩
  · exact hsp tt
  · exact hsp _

/-- One resumption of the `iterate` generator adds exactly one master lap
and leaves the stored expected step count unchanged. -/
theorem iterStep_effect (tt tt' : TaskTimer) (a b : ℚ)
    (h : tt.iterStep a b = .ok tt') :
    tt'.master.laps = tt.master.laps + 1 ∧ tt'.laps = tt.laps := by
  unfold TaskTimer.iterStep at h
  simp only [bind, Except.bind] at h
  cases htask : tt.task none a a with
  | error e => rw [htask] at h; exact absurd h (by simp)
  | ok tt1 =>
    rw [htask] at h
    replace h : (match tt1.master.stop b with
        | none => (Except.error "AttributeError" : Except String TaskTimer)
        | some m => Except.ok { tt1 with master := m }) = Except.ok tt' := h
    cases hstop : tt1.master.stop b with
    | none => rw [hstop] at h; exact absurd h (by simp)
    | some m =>
      rw [hstop] at h
      injection h with h'
      obtain ⟨hm, hl⟩ := task_preserves_master tt none a a tt1 htask
      rw [← h']
      exact ⟨by rw [show m.laps = tt1.master.laps + 1 from
          Timer.stop_laps tt1.master m b hstop, hm], hl⟩

/-- Folding resumptions: the master lap count grows by exactly the number
of consumed elements. -/
theorem iterSteps_laps (times : List (ℚ × ℚ)) :
    ∀ s tt' : TaskTimer,
      times.foldlM (fun acc p => acc.iterStep p.1 p.2) s = .ok tt' →
      tt'.master.laps = s.master.laps + times.length ∧ tt'.laps = s.laps := by
  induction times with
  | nil =>
    intro s tt' h
    simp only [List.foldlM_nil] at h
    injection h with h'
    rw [← h']
    simp
  | cons p ps ih =>
    intro s tt' h
    simp only [List.foldlM_cons, bind, Except.bind] at h
    cases hstep : s.iterStep p.1 p.2 with
    | error e => rw [hstep] at h; exact absurd h (by simp)
    | ok s1 =>
      rw [hstep] at h
      obtain ⟨h1, h2⟩ := ih s1 tt' h
      obtain ⟨e1, e2⟩ := iterStep_effect s s1 p.1 p.2 hstep
      refine ⟨?_, by rw [h2, e2]⟩
      rw [h1, e1, List.length_cons]
      omega

/-- Concrete result of `iterate` over a 2-element sequence consumed fully
while `iterations=1` was passed: the master accumulator records 2 laps but
the stored expected step count is 1. -/
def ttC9 : TaskTimer :=
  { master := { last := 2, total := 4, mean := 2, sum_sq_diff := 0, laps := 2,
                pendingStart := some 4, running := false, stats := .population },
    timers := [], current := none, laps := 1, offset := 0, in_progress := true }

/-- C9 counterexample: with `iterate(seq, iterations=1)` over a 2-element
sequence, after full consumption `masterAccumulator.lapCount = 2` exceeds
the stored `totalExpectedSteps = 1`. -/
theorem iterate_lap_bound_counterexample :
    TaskTimer.init.iterRun 2 (some 1) 0 0 [(1, 2), (3, 4)] = .ok ttC9 ∧
    ttC9.laps < ttC9.master.laps := by
  constructor
  · norm_num [TaskTimer.iterRun, TaskTimer.iterInit, TaskTimer.iterStep,
      TaskTimer.task, taskStartPhase, TaskTimer.init, Timer.init, Timer.mkNew,
      Timer.reset, Timer.start, Timer.stop, List.foldlM_cons, List.foldlM_nil,
      bind, Except.bind, pure, Except.pure, ttC9]
  · decide

/-- C9 amended: during a consumed-in-order `iterate`, the master
accumulator's lap count always equals the number of consumed elements (so
it never exceeds the sequence length), and it never exceeds the stored
`totalExpectedSteps` provided `totalSteps ≥ len(sequence)` — in particular
whenever `totalSteps` is left at its default `len(sequence)`.  (The
original claim fails for `totalSteps < len(sequence)`, see the
counterexample.) -/
theorem iterate_lap_bound (tt : TaskTimer) (seqLen : ℕ) (iterations : Option ℕ)
    (offset : ℤ) (now : ℚ) (times : List (ℚ × ℚ)) (tt' : TaskTimer)
    (h : tt.iterRun seqLen iterations offset now times = .ok tt')
    (hconsume : times.length ≤ seqLen) :
    tt'.master.laps = times.length ∧
    tt'.laps = iterations.getD seqLen ∧
    (seqLen ≤ iterations.getD seqLen → tt'.master.laps ≤ tt'.laps) := by
  obtain ⟨h1, h2⟩ :=
    iterSteps_laps times (tt.iterInit seqLen iterations offset now) tt' h
  have hml : (tt.iterInit seqLen iterations offset now).master.laps = 0 := rfl
  have hl : (tt.iterInit seqLen iterations offset now).laps =
      iterations.getD seqLen := rfl
  rw [hml] at h1
  rw [hl] at h2
  refine ⟨by omega, h2, fun hge => by omega⟩

/-- Concrete result of the same run with the default
`iterations=len(sequence)`: the bound holds. -/
def ttC9b : TaskTimer :=
  { ttC9 with laps := 2 }

/-- Witness for C9's amended theorem with the default step count. -/
theorem iterate_lap_bound_witness : ttC9b.master.laps ≤ ttC9b.laps :=
  (iterate_lap_bound TaskTimer.init 2 none 0 0 [(1, 2), (3, 4)] ttC9b
    (by norm_num [TaskTimer.iterRun, TaskTimer.iterInit, TaskTimer.iterStep,
      TaskTimer.task, taskStartPhase, TaskTimer.init, Timer.init, Timer.mkNew,
      Timer.reset, Timer.start, Timer.stop, List.foldlM_cons, List.foldlM_nil,
      bind, Except.bind, pure, Except.pure, ttC9b, ttC9])
    (by decide)).2.2 (by decide)

/-! ## C7: summary percentages and the zero grand total -/

theorem exceptBind_ok {α β : Type} (a : α) (f : α → Except String β) :
    (Except.ok a : Except String α) >>= f = f a := rfl

theorem exceptBind_error {α β : Type} (e : String) (f : α → Except String β) :
    (Except.error e : Except String α) >>= f = .error e := rfl

theorem pyDiv_ok_num (a S : ℚ) (frac : PyFloat ℚ)
    (h : pyDiv (.num a) (.num S) = .ok frac) :
    S ≠ 0 ∧ frac = .num (a / S) := by
  by_cases hS : S = 0
  · subst hS
    exact absurd h (by simp [pyDiv])
  · rw [pyDiv_num _ _ hS] at h
    injection h with h'
    exact ⟨hS, h'.symm⟩

/-- When the grand total is zero and at least one task is registered, the
fraction computation of the first row divides by zero. -/
theorem summaryRows_zero_total_raises (tt : TaskTimer) (hne : tt.timers ≠ [])
    (hzero : (tt.timers.map (fun kv => kv.2.total)).sum = 0) :
    tt.summaryRows = .error "ZeroDivisionError" := by
  unfold TaskTimer.summaryRows
  rw [hzero]
  cases htimers : tt.timers with
  | nil => exact absurd htimers hne
  | cons kv rest =>
    obtain ⟨k, v⟩ := kv
    show (pyDiv (.num (100 * v.total)) (.num 0) >>= fun fraction =>
      v.stdev >>= fun sd => summaryRowsAux 0 rest >>= fun rows =>
        .ok ({ tag := k, laps := v.laps, mean := v.mean, stdev := sd,
               total := v.total, fraction := fraction } :: rows))
      = .error "ZeroDivisionError"
    rw [show pyDiv (.num (100 * v.total)) (.num 0) =
      .error "ZeroDivisionError" from by simp [pyDiv], exceptBind_error]

/-- Row-by-row content of a successfully computed summary: each row keeps
its task's statistics and its fraction is `100 * taskTotal / S`; a
successful computation over a nonempty registry forces `S ≠ 0`. -/
theorem summaryRowsAux_spec (S : ℚ) (l : List (String × Timer))
    (rows : List SummaryRow) (h : summaryRowsAux S l = .ok rows) :
    (l ≠ [] → S ≠ 0) ∧
    List.Forall₂ (fun (row : SummaryRow) (kv : String × Timer) =>
      row.tag = kv.1 ∧ row.laps = kv.2.laps ∧ row.mean = kv.2.mean ∧
      row.total = kv.2.total ∧ row.fraction = .num (100 * kv.2.total / S))
      rows l := by
  induction l generalizing rows with
  | nil =>
    refine ⟨fun hne => absurd rfl hne, ?_⟩
    simp only [summaryRowsAux] at h
    injection h with h'
    rw [← h']
    exact List.Forall₂.nil
  | cons kv rest ih =>
    obtain ⟨k, v⟩ := kv
    replace h : (pyDiv (.num (100 * v.total)) (.num S) >>= fun fraction =>
        v.stdev >>= fun sd => summaryRowsAux S rest >>= fun rows' =>
          .ok ({ tag := k, laps := v.laps, mean := v.mean, stdev := sd,
                 total := v.total, fraction := fraction } :: rows'))
        = .ok rows := h
    cases hdiv : pyDiv (.num (100 * v.total)) (.num S) with
    | error e => rw [hdiv, exceptBind_error] at h; exact absurd h (by simp)
    | ok frac =>
      rw [hdiv, exceptBind_ok] at h
      obtain ⟨hS, hfrac⟩ := pyDiv_ok_num _ _ _ hdiv
      cases hsd : v.stdev with
      | error e => rw [hsd, exceptBind_error] at h; exact absurd h (by simp)
      | ok sd =>
        rw [hsd, exceptBind_ok] at h
        cases haux : summaryRowsAux S rest with
        | error e => rw [haux, exceptBind_error] at h; exact absurd h (by simp)
        | ok rows' =>
          rw [haux, exceptBind_ok] at h
          injection h with h'
          obtain ⟨-, hall⟩ := ih rows' haux
          rw [← h']
          exact ⟨fun _ => hS,
            List.Forall₂.cons ⟨rfl, rfl, rfl, rfl, by rw [hfrac]⟩ hall⟩

/-- C7 (amended): if the grand total over the registered tasks is zero and
at least one task is registered, `summary()` raises `ZeroDivisionError`
(it does not report an "undefined" marker); whenever the summary rows are
computed successfully, every task appears in insertion order with its
statistics and with percent `100 * taskTotal / sumOfAllTaskTotals`. -/
theorem summary_percent_spec (tt : TaskTimer) (rows : List SummaryRow) :
    (tt.timers ≠ [] → (tt.timers.map (fun kv => kv.2.total)).sum = 0 →
      tt.summaryRows = .error "ZeroDivisionError") ∧
    (tt.summaryRows = .ok rows →
      List.Forall₂ (fun (row : SummaryRow) (kv : String × Timer) =>
        row.tag = kv.1 ∧ row.laps = kv.2.laps ∧ row.mean = kv.2.mean ∧
        row.total = kv.2.total ∧
        row.fraction = .num (100 * kv.2.total /
          (tt.timers.map (fun kv => kv.2.total)).sum)) rows tt.timers) :=
  ⟨fun hne hzero => summaryRows_zero_total_raises tt hne hzero,
   fun h => (summaryRowsAux_spec _ _ _ h).2⟩

/-- Concrete registry refuting C7's "undefined marker" clause: one
registered task whose accumulated total is zero. -/
def ttC7 : TaskTimer :=
  { TaskTimer.init with
    timers := [("A", Timer.init.start 0)]
    current := some "A" }

/-- C7 counterexample: with a zero grand total and a registered task,
`summary()` raises `ZeroDivisionError` instead of reporting the percent as
an explicit undefined marker. -/
theorem summary_zero_total_counterexample :
    ttC7.summaryRows = .error "ZeroDivisionError" :=
  summaryRows_zero_total_raises ttC7 (by simp [ttC7])
    (by norm_num [ttC7, TaskTimer.init, Timer.init, Timer.mkNew, Timer.start])

/-- Concrete registry for the C7 witness: one task, one lap of 5 s. -/
def ttC7w : TaskTimer :=
  { TaskTimer.init with
    timers := [("A", { Timer.init with laps := 1, total := 5, mean := 5 })] }

/-- Witness for C7's amended theorem: the single task's percent is 100. -/
theorem summary_percent_spec_witness :
    List.Forall₂ (fun (row : SummaryRow) (kv : String × Timer) =>
      row.tag = kv.1 ∧ row.laps = kv.2.laps ∧ row.mean = kv.2.mean ∧
      row.total = kv.2.total ∧
      row.fraction = .num (100 * kv.2.total /
        (ttC7w.timers.map (fun kv => kv.2.total)).sum))
      [{ tag := "A", laps := 1, mean := 5, stdev := .num 0, total := 5,
         fraction := .num 100 }] ttC7w.timers :=
  (summary_percent_spec ttC7w _).2
    (by norm_num [ttC7w, TaskTimer.init, Timer.init, Timer.mkNew,
      TaskTimer.summaryRows, summaryRowsAux, pyDiv, Timer.stdev,
      Timer.population_stdev, Timer.variance, Timer.population_variance,
      mathSqrt, bind, Except.bind])
